import Mathlib

/-!
Verification of the caracal probing engine core against its specification.

The development shallowly embeds the C++ sources:
  * src/builder.cpp  — probe builder (checksum tweak trick, IP/ICMP/UDP headers)
  * src/prober.cpp   — prober driver loop, statistics, file input
  * src/reader.cpp   — pcap reader / CSV writer loop

Packet buffers are modelled as lists of byte values (Nat, big-endian wire
order).  All 16-bit quantities are represented by the numeric value of their
big-endian byte pair, so `htons`/`ntohs` are the identity in the model and a
16-bit field value `v` is serialised as the two bytes `[v / 256, v % 256]`.
-/

namespace Caracal

/-- Serialise a 16-bit value to its two big-endian bytes. -/
def toBytes16 (v : Nat) : List Nat := [v / 256 % 256, v % 256]

/-- Serialise a 32-bit value to its four big-endian bytes. -/
def toBytes32 (v : Nat) : List Nat :=
  [v / 16777216 % 256, v / 65536 % 256, v / 256 % 256, v % 256]

/-- Modelled from the spec: the accumulation step of the one's-complement
Internet checksum over a byte buffer (`ip_checksum_add` of `netutils/checksum.h`,
which is not part of the repository sources).  Consecutive byte pairs are read
as big-endian 16-bit words; a trailing odd byte is padded with a zero byte. -/
def wordSum : List Nat → Nat
  | [] => 0
  | [a] => a * 256
  | a :: b :: rest => (a * 256 + b) + wordSum rest

/-- One fold-and-carry pass, bounded by the fuel argument so that the kernel
can evaluate it.  `foldAux fuel s` folds the 16-bit carries of `s` back into
the low word until the value fits in 16 bits (at most `fuel` times). -/
def foldAux : Nat → Nat → Nat
  | 0, s => s
  | fuel + 1, s => if s < 65536 then s else foldAux fuel (s % 65536 + s / 65536)

/-- Modelled from the spec: folding the carries of a one's-complement partial
sum into 16 bits.  `s` strictly decreases at every fold step, so `s` itself is
always enough fuel. -/
def foldsum (s : Nat) : Nat := foldAux s s

/-- Modelled from the spec: `ip_checksum_finish` — fold the partial sum and
complement it (`~fold(s) & 0xFFFF`, i.e. `65535 - foldsum s`). -/
def ip_checksum_finish (s : Nat) : Nat := 65535 - foldsum s

/-- Modelled from the spec: `ip_checksum_add` — accumulate a byte buffer into
a partial sum. -/
def ip_checksum_add (current : Nat) (bytes : List Nat) : Nat := current + wordSum bytes

/-- Modelled from the spec: `ip_checksum` — the one's-complement Internet
checksum of a byte buffer, as a 16-bit big-endian value. -/
def ip_checksum (bytes : List Nat) : Nat := ip_checksum_finish (ip_checksum_add 0 bytes)

/-- `tweak_payload` from src/builder.cpp: the 16-bit compensator word written
at the start of the payload.  Both arguments are 16-bit values in the
big-endian representation (so `ntohs`/`hton` are the identity here). -/
def tweak_payload (original_checksum target_checksum : Nat) : Nat :=
  let original_le := 65535 - original_checksum % 65536
  let target_le := 65535 - target_checksum % 65536
  if target_le < original_le then target_le + 65535 - original_le
  else target_le - original_le

/-! ## Errors

`std::invalid_argument` and `std::system_error` are the two error kinds the
modelled sources throw. -/

inductive Err where
  | invalidArgument (msg : String)
  | systemError (msg : String)
deriving DecidableEq

instance instDecEqExcept {ε α : Type} [DecidableEq ε] [DecidableEq α] :
    DecidableEq (Except ε α) := fun x y =>
  match x, y with
  | .ok a, .ok b =>
    if h : a = b then .isTrue (by rw [h]) else .isFalse (fun hc => h (by injection hc))
  | .ok _, .error _ => .isFalse (fun hc => by injection hc)
  | .error _, .ok _ => .isFalse (fun hc => by injection hc)
  | .error e, .error f =>
    if h : e = f then .isTrue (by rw [h]) else .isFalse (fun hc => h (by injection hc))

/-- `true` exactly on successful results. -/
def exceptIsOk {α : Type} : Except Err α → Bool
  | .ok _ => true
  | .error _ => false

/-- `true` exactly on `systemError` results. -/
def exceptIsSystemError {α : Type} : Except Err α → Bool
  | .error (.systemError _) => true
  | _ => false

/-- `Checked::numeric_cast<uint16_t>` from caracal/checked.hpp (declared by
the in-repo test tests/checked_test.cpp): returns the value if it fits in
16 bits and throws `std::invalid_argument` otherwise. -/
def Checked.numeric_cast16 (v : Nat) : Except Err Nat :=
  if v < 65536 then .ok v else .error (.invalidArgument ("bad numeric conversion"))

/-- `Checked::hton<uint16_t>`: checked conversion followed by `htons`.  In the
big-endian value representation the byte swap is the identity, so this is the
checked cast alone. -/
def Checked.hton16 (v : Nat) : Except Err Nat := Checked.numeric_cast16 v

/-! ## Header and packet layout

Headers are structures of field values together with their big-endian wire
serialisation; a `Packet` is the L3 header, L4 header and payload region of
the buffer plus the L4 protocol tag carried by `caracal::Packet`. -/

structure IcmpHeader where
  icmp_type : Nat
  icmp_code : Nat
  icmp_cksum : Nat
  icmp_id : Nat
  icmp_seq : Nat
deriving DecidableEq

/-- Wire bytes of the 8-byte ICMP/ICMPv6 echo header. -/
def IcmpHeader.bytes (h : IcmpHeader) : List Nat :=
  [h.icmp_type, h.icmp_code] ++ toBytes16 h.icmp_cksum ++
    toBytes16 h.icmp_id ++ toBytes16 h.icmp_seq

structure UdpHeader where
  uh_sport : Nat
  uh_dport : Nat
  uh_ulen : Nat
  uh_sum : Nat
deriving DecidableEq

/-- Wire bytes of the 8-byte UDP header. -/
def UdpHeader.bytes (h : UdpHeader) : List Nat :=
  toBytes16 h.uh_sport ++ toBytes16 h.uh_dport ++
    toBytes16 h.uh_ulen ++ toBytes16 h.uh_sum

structure Ipv4Header where
  ip_hl : Nat
  ip_v : Nat
  ip_tos : Nat
  ip_len : Nat
  ip_id : Nat
  ip_off : Nat
  ip_ttl : Nat
  ip_p : Nat
  ip_sum : Nat
  ip_src : Nat
  ip_dst : Nat
deriving DecidableEq

/-- Wire bytes of the 20-byte IPv4 header (version and header length packed
in the first byte, addresses as 32-bit big-endian values). -/
def Ipv4Header.bytes (h : Ipv4Header) : List Nat :=
  [h.ip_v * 16 + h.ip_hl, h.ip_tos] ++ toBytes16 h.ip_len ++ toBytes16 h.ip_id ++
    toBytes16 h.ip_off ++ [h.ip_ttl, h.ip_p] ++ toBytes16 h.ip_sum ++
    toBytes32 h.ip_src ++ toBytes32 h.ip_dst

structure Ipv6Header where
  ip6_flow : Nat
  ip6_plen : Nat
  ip6_nxt : Nat
  ip6_hops : Nat
  ip6_src : List Nat
  ip6_dst : List Nat
deriving DecidableEq

inductive L3Header where
  | v4 (h : Ipv4Header)
  | v6 (h : Ipv6Header)
deriving DecidableEq

inductive L4Header where
  | icmp (h : IcmpHeader)
  | udp (h : UdpHeader)
deriving DecidableEq

/-- Wire bytes of the L4 header region. -/
def L4Header.bytes : L4Header → List Nat
  | .icmp h => h.bytes
  | .udp h => h.bytes

structure Packet where
  l3 : L3Header
  l4 : L4Header
  l4_protocol : Nat
  payload : List Nat
deriving DecidableEq

def Packet.payload_size (p : Packet) : Nat := p.payload.length

/-- All modelled L4 headers (ICMP echo, ICMPv6 echo, UDP) are 8 bytes. -/
def Packet.l4_size (p : Packet) : Nat := 8 + p.payload.length

def Packet.l3_size (p : Packet) : Nat :=
  (match p.l3 with | .v4 _ => 20 | .v6 _ => 40) + p.l4_size

/-- Modelled from the spec: `ipv4_pseudo_header_checksum` of
netutils/checksum.h (not in src/) — partial sum over the IPv4 pseudo header
(source, destination, protocol, L4 length). -/
def ipv4_pseudo_header_checksum (ip_header : Ipv4Header) (l4len : Nat) : Nat :=
  wordSum (toBytes32 ip_header.ip_src) + wordSum (toBytes32 ip_header.ip_dst) +
    ip_header.ip_p + l4len

/-- Modelled from the spec: `ipv6_pseudo_header_checksum` of
netutils/checksum.h (not in src/) — partial sum over the IPv6 pseudo header
(source, destination, L4 length, next header). -/
def ipv6_pseudo_header_checksum (ip6_header : Ipv6Header) (l4len : Nat)
    (l4_protocol : Nat) : Nat :=
  wordSum ip6_header.ip6_src + wordSum ip6_header.ip6_dst + l4len + l4_protocol

/-- Modelled from the spec: `PAYLOAD_TWEAK_BYTES` from caracal/constants.hpp
(not in src/); the spec fixes the minimum payload for the checksum tweak at
two bytes. -/
def PAYLOAD_TWEAK_BYTES : Nat := 2

/-! ## Builder (src/builder.cpp) -/

/-- `caracal::Builder::assert_payload_size`. -/
def Builder.assert_payload_size (packet : Packet) (min_size : Nat) : Except Err Unit :=
  if packet.payload_size < min_size then
    .error (.invalidArgument ("The payload must be at-least " ++ toString min_size ++
      " bytes long to allow for a custom checksum"))
  else .ok ()

/-- `caracal::Builder::transport_checksum`: pseudo-header sum selected by the
L3 protocol, then the L4 header and payload, folded and closed.  The
`numeric_cast<uint16_t>` of the L4 size can throw. -/
def Builder.transport_checksum (packet : Packet) : Except Err Nat :=
  match Checked.numeric_cast16 packet.l4_size with
  | .error e => .error e
  | .ok l4len =>
    let current : Nat :=
      match packet.l3 with
      | .v4 ip_header => ipv4_pseudo_header_checksum ip_header l4len
      | .v6 ip6_header => ipv6_pseudo_header_checksum ip6_header l4len packet.l4_protocol
    .ok (ip_checksum_finish (ip_checksum_add current (packet.l4.bytes ++ packet.payload)))

/-- The echo-request header assembled by `ICMP::init` / `ICMPv6::init` before
the checksum is stored: given type, code 0, zero checksum, the target checksum
in the id field (redundant channel) and the caller's sequence value. -/
def Builder.echo_header (icmp_type target_checksum target_seq : Nat) : IcmpHeader :=
  { icmp_type := icmp_type, icmp_code := 0, icmp_cksum := 0,
    icmp_id := target_checksum, icmp_seq := target_seq }

/-- The checksum `ICMP::init` derives the tweak word from:
`ip_checksum(icmp_header, ICMP_HEADER_SIZE)`, i.e. the 8 header bytes only. -/
def Builder.ICMP.original_checksum (icmp_header : IcmpHeader) : Nat :=
  ip_checksum icmp_header.bytes

/-- `caracal::Builder::ICMP::init`. -/
def Builder.ICMP.init (packet : Packet) (target_checksum target_seq : Nat) :
    Except Err Packet :=
  match Builder.assert_payload_size packet PAYLOAD_TWEAK_BYTES with
  | .error e => .error e
  | .ok _ =>
    let icmp_header := Builder.echo_header 8 target_checksum target_seq
    let original_checksum := Builder.ICMP.original_checksum icmp_header
    .ok { packet with
          l4 := .icmp { icmp_header with icmp_cksum := target_checksum },
          payload := toBytes16 (tweak_payload original_checksum target_checksum) ++
            packet.payload.drop 2 }

/-- `caracal::Builder::ICMPv6::init`.  Unlike ICMPv4 the original checksum is
the full transport checksum (IPv6 pseudo header, L4 header and payload). -/
def Builder.ICMPv6.init (packet : Packet) (target_checksum target_seq : Nat) :
    Except Err Packet :=
  match Builder.assert_payload_size packet PAYLOAD_TWEAK_BYTES with
  | .error e => .error e
  | .ok _ =>
    let icmp6_header := Builder.echo_header 128 target_checksum target_seq
    let packet1 := { packet with l4 := .icmp icmp6_header }
    match Builder.transport_checksum packet1 with
    | .error e => .error e
    | .ok original_checksum =>
      .ok { packet1 with
            l4 := .icmp { icmp6_header with icmp_cksum := target_checksum },
            payload := toBytes16 (tweak_payload original_checksum target_checksum) ++
              packet1.payload.drop 2 }

/-- `caracal::Builder::UDP::set_checksum` (target-checksum overload). -/
def Builder.UDP.set_checksum (packet : Packet) (target_checksum : Nat) :
    Except Err Packet :=
  match Builder.assert_payload_size packet PAYLOAD_TWEAK_BYTES with
  | .error e => .error e
  | .ok _ =>
    match packet.l4 with
    | .udp udp_header =>
      let packet1 := { packet with l4 := .udp { udp_header with uh_sum := 0 } }
      match Builder.transport_checksum packet1 with
      | .error e => .error e
      | .ok original_checksum =>
        .ok { packet1 with
              l4 := .udp { udp_header with uh_sum := target_checksum },
              payload := toBytes16 (tweak_payload original_checksum target_checksum) ++
                packet.payload.drop 2 }
    | .icmp _ =>
      -- The C++ code would write through a reinterpreted udphdr pointer; a
      -- UDP builder call on an ICMP-tagged region never occurs in the
      -- pipeline and is left unmodelled.
      .ok packet

/-- The IPv4 header as filled by `IP::init` just before the checksum is
computed: version 4, header length 5, ToS 0, the given protocol, addresses
and TTL, the IP ID and total length values produced by the checked
conversions, and a zero checksum.  The fragment field is not assigned. -/
def Builder.filled_ipv4_header (ip_header : Ipv4Header)
    (protocol src_addr dst_addr ttl id len : Nat) : Ipv4Header :=
  { ip_header with
    ip_hl := 5, ip_v := 4, ip_tos := 0, ip_p := protocol,
    ip_src := src_addr, ip_dst := dst_addr, ip_ttl := ttl,
    ip_id := id, ip_len := len, ip_sum := 0 }

/-- `caracal::Builder::IP::init` (in_addr overload, IPv4). -/
def Builder.IP.init4 (packet : Packet) (protocol : Nat) (src_addr dst_addr : Nat)
    (ttl : Nat) : Except Err Packet :=
  match packet.l3 with
  | .v4 ip_header =>
    match Checked.hton16 ttl with
    | .error e => .error e
    | .ok id =>
      match Checked.hton16 packet.l3_size with
      | .error e => .error e
      | .ok len =>
        let h1 := Builder.filled_ipv4_header ip_header protocol src_addr dst_addr ttl id len
        .ok { packet with l3 := .v4 { h1 with ip_sum := ip_checksum h1.bytes } }
  | .v6 _ =>
    -- Mismatched-tag reinterpretation: never occurs in the pipeline.
    .ok packet

/-- `caracal::Builder::IP::init` (in6_addr overload, IPv6).  The flow word is
`htonl(0x60000000)`: version 6, traffic class 0, flow label 0.  The payload
length field is set from the packet's L4 size. -/
def Builder.IP.init6 (packet : Packet) (protocol : Nat) (src_addr dst_addr : List Nat)
    (ttl : Nat) : Except Err Packet :=
  match packet.l3 with
  | .v6 _ =>
    match Checked.hton16 packet.l4_size with
    | .error e => .error e
    | .ok plen =>
      .ok { packet with l3 := .v6 {
        ip6_flow := 0x60000000, ip6_nxt := protocol,
        ip6_src := src_addr, ip6_dst := dst_addr,
        ip6_hops := ttl, ip6_plen := plen } }
  | .v4 _ =>
    -- Mismatched-tag reinterpretation: never occurs in the pipeline.
    .ok packet

/-- Zero the L4 checksum field of a finished buffer (first step of a
receiver-side checksum recomputation). -/
def zero_l4_checksum (p : Packet) : Packet :=
  { p with l4 :=
      match p.l4 with
      | .icmp h => .icmp { h with icmp_cksum := 0 }
      | .udp h => .udp { h with uh_sum := 0 } }

/-- The L4 checksum of a finished buffer recomputed from scratch, following
the spec's words (§4.1, §8 law 1): the checksum field is zeroed, then the
protocol checksum is computed over the pseudo-header where applicable
(UDP, and everything over IPv6), the L4 header and the payload; ICMPv4
covers only the ICMP header and the payload. -/
def spec_l4_checksum (p : Packet) : Except Err Nat :=
  match p.l3, p.l4 with
  | .v4 _, .icmp _ =>
    .ok (ip_checksum ((zero_l4_checksum p).l4.bytes ++ p.payload))
  | _, _ => Builder.transport_checksum (zero_l4_checksum p)

/-! ## Prober driver (src/prober.cpp)

The driver loop is embedded as a fold over the list of probes the iterator
yields.  The LPM lookups and the send outcomes are abstracted as boolean
oracles (`excl`/`incl` on the destination address, `sendOk` on the index of
the send attempt); the sniffer, the rate limiter and the logging have no
effect on the prober statistics and are not part of the state. -/

structure Probe where
  dst_addr : Nat
  ttl : Nat
deriving DecidableEq

structure Statistics.Prober where
  read : Nat := 0
  filtered_lo_ttl : Nat := 0
  filtered_hi_ttl : Nat := 0
  filtered_prefix_excl : Nat := 0
  filtered_prefix_not_incl : Nat := 0
  sent : Nat := 0
  failed : Nat := 0
deriving DecidableEq

structure Prober.Config where
  filter_min_ttl : Option Nat := none
  filter_max_ttl : Option Nat := none
  prefix_excl_file : Bool := false
  prefix_incl_file : Bool := false
  n_packets : Nat := 1
  max_probes : Option Nat := none
deriving DecidableEq

/-- The inner `for (i = 0; i < n_packets; i++)` loop of `Prober::probe`:
each send attempt either increments `sent` or, when the sender throws
`std::system_error`, increments `failed`; the loop never exits early.  The
attempt outcome oracle is indexed by `sent + failed`, which grows by exactly
one per attempt.  (`rl.wait()` does not touch the statistics.) -/
def Prober.sendLoop (sendOk : Nat → Bool) : Nat → Statistics.Prober → Statistics.Prober
  | 0, stats => stats
  | n + 1, stats =>
    let stats := if sendOk (stats.sent + stats.failed)
      then { stats with sent := stats.sent + 1 }
      else { stats with failed := stats.failed + 1 }
    Prober.sendLoop sendOk n stats

/-- One iteration of the `while (it(p))` loop body: count the read, apply the
TTL filters, then the deny and allow prefix filters, and finally emit
`n_packets` copies. -/
def Prober.handleProbe (config : Prober.Config) (excl incl : Nat → Bool)
    (sendOk : Nat → Bool) (stats : Statistics.Prober) (p : Probe) :
    Statistics.Prober :=
  let stats := { stats with read := stats.read + 1 }
  if (match config.filter_min_ttl with
      | some m => decide (p.ttl < m)
      | none => false) then
    { stats with filtered_lo_ttl := stats.filtered_lo_ttl + 1 }
  else if (match config.filter_max_ttl with
      | some m => decide (m < p.ttl)
      | none => false) then
    { stats with filtered_hi_ttl := stats.filtered_hi_ttl + 1 }
  else if config.prefix_excl_file && excl p.dst_addr then
    { stats with filtered_prefix_excl := stats.filtered_prefix_excl + 1 }
  else if config.prefix_incl_file && !incl p.dst_addr then
    { stats with filtered_prefix_not_incl := stats.filtered_prefix_not_incl + 1 }
  else
    Prober.sendLoop sendOk config.n_packets stats

/-- The driver loop of `Prober::probe` (Iterator overload): the iterator is
embedded as the list of probes it yields; after each iteration the loop
breaks when `max_probes` is configured and `sent` has reached it. -/
def Prober.probeLoop (config : Prober.Config) (excl incl : Nat → Bool)
    (sendOk : Nat → Bool) : List Probe → Statistics.Prober → Statistics.Prober
  | [], stats => stats
  | p :: rest, stats =>
    let stats := Prober.handleProbe config excl incl sendOk stats p
    if (match config.max_probes with
        | some m => decide (m ≤ stats.sent)
        | none => false) then
      stats
    else
      Prober.probeLoop config excl incl sendOk rest stats

/-- Number of successful outcomes among `n` consecutive send attempts
starting at attempt index `base`. -/
def Prober.countSuccess (sendOk : Nat → Bool) (base : Nat) : Nat → Nat
  | 0 => 0
  | n + 1 => (if sendOk base then 1 else 0) + Prober.countSuccess sendOk (base + 1) n

/-- `Prober::probe` (fs::path overload): `fs::exists` is checked first and a
missing file raises `std::invalid_argument`; otherwise the run continues on
the opened stream (abstracted as `run`). -/
def Prober.probe_file (fs_exists : String → Bool) (path : String)
    (run : String → Statistics.Prober) : Except Err Statistics.Prober :=
  if !fs_exists path then
    .error (.invalidArgument (path ++ " does not exists"))
  else .ok (run path)

/-! ## Reader (src/reader.cpp)

The capture loop of `dminer::Reader::read` hands each frame to a handler;
the parser is abstracted as a function returning `Option Reply`.  The CSV
output stream is modelled as the list of written lines. -/

structure Reply where
  src_ip : Nat
  inner_dst_ip : Nat
  csv : String
deriving DecidableEq

structure Statistics.Sniffer where
  received_count : Nat := 0
  icmp_messages_all : List Nat := []
  icmp_messages_path : List Nat := []
deriving DecidableEq

structure Reader.State where
  statistics : Statistics.Sniffer := {}
  output_csv : List String := []
deriving DecidableEq

/-- The handler lambda of `Reader::read`, applied to one captured frame:
parse, update the reply sets and write one CSV line when a reply was parsed,
and increment `received_count` unconditionally.  (The periodic statistics
log has no effect on the state.) -/
def Reader.handle {Frame : Type} (parse : Frame → Option Reply) (round : String)
    (st : Reader.State) (packet : Frame) : Reader.State :=
  match parse packet with
  | some reply =>
    let stats := st.statistics
    let stats := { stats with
      icmp_messages_all := stats.icmp_messages_all.insert reply.src_ip }
    let stats := if reply.src_ip = reply.inner_dst_ip then
        { stats with icmp_messages_path := stats.icmp_messages_path.insert reply.src_ip }
      else stats
    { statistics := { stats with received_count := stats.received_count + 1 },
      output_csv := st.output_csv ++ [reply.csv ++ "," ++ round ++ ",1\n"] }
  | none =>
    { st with statistics :=
        { st.statistics with received_count := st.statistics.received_count + 1 } }

/-- `Reader::read`'s `sniff_loop`: fold the handler over the captured frames. -/
def Reader.read {Frame : Type} (parse : Frame → Option Reply) (round : String)
    (frames : List Frame) (st : Reader.State) : Reader.State :=
  frames.foldl (Reader.handle parse round) st

/-- The stored `ip6_plen` field of a build result (0 when the result is an
error or not an IPv6 packet); used to state claims about the IPv6 builder. -/
def plen_of : Except Err Packet → Nat
  | .ok q =>
    match q.l3 with
    | .v6 h => h.ip6_plen
    | .v4 _ => 0
  | .error _ => 0

/-! ## Concrete test vectors -/

def testIpv4Header : Ipv4Header :=
  { ip_hl := 0, ip_v := 0, ip_tos := 0, ip_len := 0, ip_id := 0, ip_off := 0,
    ip_ttl := 0, ip_p := 1, ip_sum := 0, ip_src := 16909060, ip_dst := 84281096 }

def testIcmpHeader : IcmpHeader :=
  { icmp_type := 0, icmp_code := 0, icmp_cksum := 0, icmp_id := 0, icmp_seq := 0 }

def testUdpHeader : UdpHeader :=
  { uh_sport := 24000, uh_dport := 33434, uh_ulen := 16, uh_sum := 99 }

def testIpv6Header : Ipv6Header :=
  { ip6_flow := 0, ip6_plen := 0, ip6_nxt := 58, ip6_hops := 0,
    ip6_src := List.replicate 16 0,
    ip6_dst := [32, 1, 13, 184, 0, 0, 0, 0, 0, 0, 0, 0, 0, 0, 0, 1] }

/-- An IPv4 ICMP packet with a two-byte zero payload. -/
def testPacket4 : Packet :=
  { l3 := .v4 testIpv4Header, l4 := .icmp testIcmpHeader, l4_protocol := 1,
    payload := [0, 0] }

/-- An IPv4 ICMP packet whose payload is non-zero past the tweak region. -/
def testPacket4b : Packet :=
  { l3 := .v4 testIpv4Header, l4 := .icmp testIcmpHeader, l4_protocol := 1,
    payload := [0, 0, 7, 9] }

/-- An IPv4 ICMP packet with a one-byte payload (below the tweak minimum). -/
def testPacketSmall : Packet :=
  { l3 := .v4 testIpv4Header, l4 := .icmp testIcmpHeader, l4_protocol := 1,
    payload := [0] }

/-- An IPv6 UDP packet with an eight-byte zero payload (L4 size 16). -/
def testPacket6 : Packet :=
  { l3 := .v6 testIpv6Header, l4 := .udp testUdpHeader, l4_protocol := 17,
    payload := [0, 0, 0, 0, 0, 0, 0, 0] }

/-- A concrete driver configuration: both TTL bounds, a deny list, two packet
copies per probe and a max-probes cap. -/
def testConfig : Prober.Config :=
  { filter_min_ttl := some 2, filter_max_ttl := some 30,
    prefix_excl_file := true, prefix_incl_file := false,
    n_packets := 2, max_probes := some 3 }

def testExcl : Nat → Bool := fun a => a == 10

def testIncl : Nat → Bool := fun _ => true

/-- A send-outcome oracle with a failure every third attempt. -/
def testSendOk : Nat → Bool := fun i => i % 3 != 0

def testProbes : List Probe :=
  [{ dst_addr := 10, ttl := 5 }, { dst_addr := 11, ttl := 1 },
   { dst_addr := 12, ttl := 5 }, { dst_addr := 13, ttl := 64 },
   { dst_addr := 14, ttl := 9 }]

/-! ## Lemmas about the one's-complement fold -/

theorem foldAux_spec (fuel : Nat) : ∀ s : Nat, s ≤ fuel →
    foldAux fuel s ≤ 65535 ∧ foldAux fuel s % 65535 = s % 65535 ∧
    foldAux fuel s ≤ s ∧ (0 < s → 0 < foldAux fuel s) := by
  induction fuel with
  | zero =>
    intro s hs
    have h0 : s = 0 := Nat.le_zero.mp hs
    subst h0
    simp [foldAux]
  | succ n ih =>
    intro s hs
    by_cases h : s < 65536
    · simp only [foldAux, if_pos h]
      exact ⟨by omega, trivial, Nat.le_refl s, fun hp => hp⟩
    · simp only [foldAux, if_neg h]
      have hlt : s % 65536 + s / 65536 ≤ n := by omega
      have := ih (s % 65536 + s / 65536) hlt
      obtain ⟨h1, h2, h3, h4⟩ := this
      have hmod : (s % 65536 + s / 65536) % 65535 = s % 65535 := by
        have key : s = s % 65536 + s / 65536 + 65535 * (s / 65536) := by omega
        conv_rhs => rw [key]
        rw [Nat.add_mul_mod_self_left]
      refine ⟨h1, by omega, by omega, ?_⟩
      intro _
      exact h4 (by omega)

theorem foldsum_spec (s : Nat) :
    foldsum s ≤ 65535 ∧ foldsum s % 65535 = s % 65535 ∧
    foldsum s ≤ s ∧ (0 < s → 0 < foldsum s) :=
  foldAux_spec s s (Nat.le_refl s)

theorem tweak_payload_le (a b : Nat) : tweak_payload a b ≤ 65535 := by
  unfold tweak_payload
  dsimp only
  split <;> omega

/-- Core of the checksum tweak law: if `w = tweak_payload C_orig C_target`
where `C_orig` is the checksum finishing the partial sum `S`, then finishing
`S + w` yields exactly `C_target`, for any target different from 0xFFFF. -/
theorem checksum_tweak_correct (S target : Nat) (ht : target ≤ 65534) :
    ip_checksum_finish (S + tweak_payload (ip_checksum_finish S) target) = target := by
  obtain ⟨h1, h2, h3, h4⟩ := foldsum_spec S
  unfold ip_checksum_finish tweak_payload
  dsimp only
  have horig : (65535 - foldsum S) % 65536 = 65535 - foldsum S := by omega
  rw [horig]
  have htgt : target % 65536 = target := by omega
  rw [htgt]
  have hback : 65535 - (65535 - foldsum S) = foldsum S := by omega
  rw [hback]
  split
  · -- target_le < foldsum S
    rename_i hlt
    obtain ⟨g1, g2, g3, g4⟩ := foldsum_spec (S + (65535 - target + 65535 - foldsum S))
    have hpos : 0 < S + (65535 - target + 65535 - foldsum S) := by omega
    have := g4 hpos
    omega
  · -- foldsum S ≤ target_le
    rename_i hge
    obtain ⟨g1, g2, g3, g4⟩ := foldsum_spec (S + (65535 - target - foldsum S))
    have hpos : 0 < S + (65535 - target - foldsum S) := by omega
    have := g4 hpos
    omega

/-- Storing the just-computed checksum into the (previously zero) checksum
field makes the buffer validate: re-summing everything and finishing yields 0. -/
theorem checksum_store_valid (S : Nat) :
    ip_checksum_finish (S + ip_checksum_finish S) = 0 := by
  obtain ⟨h1, h2, h3, h4⟩ := foldsum_spec S
  unfold ip_checksum_finish
  obtain ⟨g1, g2, g3, g4⟩ := foldsum_spec (S + (65535 - foldsum S))
  have hpos : 0 < S + (65535 - foldsum S) := by omega
  have := g4 hpos
  omega

theorem wordSum_zero : ∀ (l : List Nat), (∀ b ∈ l, b = 0) → wordSum l = 0
  | [], _ => rfl
  | [a], h => by
    have := h a (by simp)
    simp [wordSum, this]
  | a :: b :: rest, h => by
    have ha := h a (by simp)
    have hb := h b (by simp)
    have hr := wordSum_zero rest (fun x hx => h x (by simp [hx]))
    simp [wordSum, ha, hb, hr]

theorem wordSum_append_even : ∀ (a b : List Nat), a.length % 2 = 0 →
    wordSum (a ++ b) = wordSum a + wordSum b
  | [], b, _ => by simp [wordSum]
  | [x], _, h => by simp at h
  | x :: y :: rest, b, h => by
    have hr : rest.length % 2 = 0 := by simp at h; omega
    have ih := wordSum_append_even rest b hr
    have e1 : wordSum ((x :: y :: rest) ++ b) = x * 256 + y + wordSum (rest ++ b) := rfl
    have e2 : wordSum (x :: y :: rest) = x * 256 + y + wordSum rest := rfl
    rw [e1, e2, ih]
    omega

theorem wordSum_toBytes16 (w : Nat) (h : w ≤ 65535) : wordSum (toBytes16 w) = w := by
  simp [toBytes16, wordSum]
  omega

/-! ## Lemmas about the checksum tweak -/

theorem ip_checksum_eq (l : List Nat) : ip_checksum l = ip_checksum_finish (wordSum l) := by
  unfold ip_checksum ip_checksum_add
  rw [Nat.zero_add]

/-- Receiver-side recomputation when the original checksum covered only the
header bytes `A` (the ICMPv4 case): writing the tweak word at the start of an
otherwise zero payload makes the checksum over header and payload equal the
target. -/
theorem tweak_recompute_hdr_only (A rest : List Nat) (hA : A.length % 2 = 0)
    (hrest : ∀ b ∈ rest, b = 0) (tc : Nat) (htc : tc ≤ 65534) :
    ip_checksum (A ++ (toBytes16 (tweak_payload (ip_checksum A) tc) ++ rest)) = tc := by
  have hle := tweak_payload_le (ip_checksum A) tc
  rw [ip_checksum_eq]
  rw [wordSum_append_even A _ hA]
  have h2 : wordSum (toBytes16 (tweak_payload (ip_checksum A) tc) ++ rest)
      = tweak_payload (ip_checksum A) tc + wordSum rest := by
    simp [toBytes16, wordSum]
    omega
  rw [h2, wordSum_zero rest hrest, ip_checksum_eq A]
  simp only [Nat.add_zero]
  exact checksum_tweak_correct (wordSum A) tc htc

/-- Receiver-side recomputation when the original checksum was the transport
checksum (pseudo-header partial sum `pre`, header bytes `A`, payload): writing
the tweak word over the two zero bytes at the start of the payload makes the
recomputed transport checksum equal the target. -/
theorem tweak_recompute_transport (pre : Nat) (A rest : List Nat)
    (hA : A.length % 2 = 0) (tc : Nat) (htc : tc ≤ 65534) :
    ip_checksum_finish (pre + wordSum (A ++
      (toBytes16 (tweak_payload
        (ip_checksum_finish (pre + wordSum (A ++ (0 :: 0 :: rest)))) tc) ++ rest))) = tc := by
  have hle := tweak_payload_le
    (ip_checksum_finish (pre + wordSum (A ++ (0 :: 0 :: rest)))) tc
  rw [wordSum_append_even A _ hA]
  have h2 : wordSum (toBytes16 (tweak_payload
      (ip_checksum_finish (pre + wordSum (A ++ (0 :: 0 :: rest)))) tc) ++ rest)
      = tweak_payload (ip_checksum_finish (pre + wordSum (A ++ (0 :: 0 :: rest)))) tc
        + wordSum rest := by
    simp [toBytes16, wordSum]
    omega
  rw [h2]
  have key := checksum_tweak_correct (pre + wordSum (A ++ (0 :: 0 :: rest))) tc htc
  have h3 : wordSum (A ++ (0 :: 0 :: rest)) = wordSum A + wordSum rest := by
    rw [wordSum_append_even A _ hA]
    simp [wordSum]
  rw [h3] at key ⊢
  convert key using 2
  omega

/-- `ICMP::init` on an IPv4 packet whose payload bytes after the two-byte
tweak region are zero achieves the target checksum. -/
theorem icmp_init_tweak_ok (l4 : L4Header) (h4 : Ipv4Header) (proto : Nat)
    (b0 b1 : Nat) (rest : List Nat) (tc ts : Nat)
    (hrest : ∀ b ∈ rest, b = 0) (htc : tc ≤ 65534) :
    ∃ q, Builder.ICMP.init
        { l3 := .v4 h4, l4 := l4, l4_protocol := proto, payload := b0 :: b1 :: rest }
        tc ts = .ok q ∧ spec_l4_checksum q = .ok tc := by
  refine ⟨{ l3 := .v4 h4,
            l4 := .icmp { Builder.echo_header 8 tc ts with icmp_cksum := tc },
            l4_protocol := proto,
            payload := toBytes16 (tweak_payload
              (Builder.ICMP.original_checksum (Builder.echo_header 8 tc ts)) tc) ++
              rest },
          ?_, ?_⟩
  · simp only [Builder.ICMP.init, Builder.assert_payload_size, Packet.payload_size,
      PAYLOAD_TWEAK_BYTES, List.length_cons]
    rw [if_neg (by omega)]
    rfl
  · show Except.ok (ip_checksum ((Builder.echo_header 8 tc ts).bytes ++
        (toBytes16 (tweak_payload (ip_checksum (Builder.echo_header 8 tc ts).bytes) tc) ++
          rest))) = Except.ok tc
    exact congrArg Except.ok (tweak_recompute_hdr_only (Builder.echo_header 8 tc ts).bytes
      rest (by simp [Builder.echo_header, IcmpHeader.bytes, toBytes16]) hrest tc htc)

/-- `transport_checksum` in the non-throwing case (L4 size fits in 16 bits). -/
theorem transport_checksum_eq (p : Packet) (hsz : p.l4_size < 65536) :
    Builder.transport_checksum p = .ok (ip_checksum_finish
      ((match p.l3 with
        | .v4 h => ipv4_pseudo_header_checksum h p.l4_size
        | .v6 h => ipv6_pseudo_header_checksum h p.l4_size p.l4_protocol)
        + wordSum (p.l4.bytes ++ p.payload))) := by
  unfold Builder.transport_checksum Checked.numeric_cast16 ip_checksum_add
  rw [if_pos hsz]

/-- Value of `ICMPv6::init` on a packet with at least two payload bytes and a
16-bit-sized L4 region. -/
theorem icmpv6_init_eq (l4 : L4Header) (h6 : Ipv6Header) (proto b0 b1 : Nat)
    (rest : List Nat) (tc ts : Nat) (hsz : 8 + (b0 :: b1 :: rest).length < 65536) :
    Builder.ICMPv6.init
      { l3 := .v6 h6, l4 := l4, l4_protocol := proto, payload := b0 :: b1 :: rest }
      tc ts
    = .ok { l3 := .v6 h6,
            l4 := .icmp { Builder.echo_header 128 tc ts with icmp_cksum := tc },
            l4_protocol := proto,
            payload := toBytes16 (tweak_payload (ip_checksum_finish
              (ipv6_pseudo_header_checksum h6 (8 + (b0 :: b1 :: rest).length) proto
                + wordSum ((Builder.echo_header 128 tc ts).bytes ++ (b0 :: b1 :: rest))))
              tc) ++ rest } := by
  simp only [Builder.ICMPv6.init, Builder.assert_payload_size, Packet.payload_size,
    PAYLOAD_TWEAK_BYTES, List.length_cons]
  rw [if_neg (by omega)]
  rw [transport_checksum_eq _ (by simpa [Packet.l4_size] using hsz)]
  rfl

/-- Value of `spec_l4_checksum` on an IPv6 ICMP packet. -/
theorem spec_l4_checksum_v6icmp (h6 : Ipv6Header) (hdr : IcmpHeader) (proto : Nat)
    (pay : List Nat) (hsz : 8 + pay.length < 65536) :
    spec_l4_checksum { l3 := .v6 h6, l4 := .icmp hdr, l4_protocol := proto, payload := pay }
    = .ok (ip_checksum_finish
        (ipv6_pseudo_header_checksum h6 (8 + pay.length) proto
          + wordSum (({ hdr with icmp_cksum := 0 } : IcmpHeader).bytes ++ pay))) := by
  simp only [spec_l4_checksum, zero_l4_checksum]
  rw [transport_checksum_eq _ (by simpa [Packet.l4_size] using hsz)]
  rfl

/-- `ICMPv6::init` on an IPv6 packet whose two tweak-region payload bytes are
zero achieves the target checksum. -/
theorem icmpv6_init_tweak_ok (l4 : L4Header) (h6 : Ipv6Header) (proto : Nat)
    (rest : List Nat) (tc ts : Nat)
    (hsz : 8 + (rest.length + 2) < 65536) (htc : tc ≤ 65534) :
    ∃ q, Builder.ICMPv6.init
        { l3 := .v6 h6, l4 := l4, l4_protocol := proto, payload := 0 :: 0 :: rest }
        tc ts = .ok q ∧ spec_l4_checksum q = .ok tc := by
  refine ⟨_, icmpv6_init_eq l4 h6 proto 0 0 rest tc ts (by simp; omega), ?_⟩
  rw [spec_l4_checksum_v6icmp h6 _ proto _ (by simp [toBytes16]; omega)]
  have hlen : (toBytes16 (tweak_payload (ip_checksum_finish
      (ipv6_pseudo_header_checksum h6 (8 + (0 :: 0 :: rest).length) proto
        + wordSum ((Builder.echo_header 128 tc ts).bytes ++ (0 :: 0 :: rest))))
      tc) ++ rest).length = (0 :: 0 :: rest).length := by
    simp [toBytes16]
  rw [hlen]
  have hhdr : ({ { Builder.echo_header 128 tc ts with icmp_cksum := tc } with
      icmp_cksum := 0 } : IcmpHeader) = Builder.echo_header 128 tc ts := rfl
  rw [hhdr]
  exact congrArg Except.ok (tweak_recompute_transport
    (ipv6_pseudo_header_checksum h6 (8 + (0 :: 0 :: rest).length) proto)
    (Builder.echo_header 128 tc ts).bytes rest
    (by simp [Builder.echo_header, IcmpHeader.bytes, toBytes16]) tc htc)

/-- Value of `UDP::set_checksum` (target overload) on an IPv4 UDP packet with
at least two payload bytes and a 16-bit-sized L4 region. -/
theorem udp_set_checksum_eq4 (h4 : Ipv4Header) (u : UdpHeader) (proto b0 b1 : Nat)
    (rest : List Nat) (tc : Nat) (hsz : 8 + (b0 :: b1 :: rest).length < 65536) :
    Builder.UDP.set_checksum
      { l3 := .v4 h4, l4 := .udp u, l4_protocol := proto, payload := b0 :: b1 :: rest } tc
    = .ok { l3 := .v4 h4,
            l4 := .udp { u with uh_sum := tc },
            l4_protocol := proto,
            payload := toBytes16 (tweak_payload (ip_checksum_finish
              (ipv4_pseudo_header_checksum h4 (8 + (b0 :: b1 :: rest).length)
                + wordSum (({ u with uh_sum := 0 } : UdpHeader).bytes ++ (b0 :: b1 :: rest))))
              tc) ++ rest } := by
  simp only [Builder.UDP.set_checksum, Builder.assert_payload_size, Packet.payload_size,
    PAYLOAD_TWEAK_BYTES, List.length_cons]
  rw [if_neg (by omega)]
  rw [transport_checksum_eq _ (by simpa [Packet.l4_size] using hsz)]
  rfl

/-- Value of `UDP::set_checksum` (target overload) on an IPv6 UDP packet with
at least two payload bytes and a 16-bit-sized L4 region. -/
theorem udp_set_checksum_eq6 (h6 : Ipv6Header) (u : UdpHeader) (proto b0 b1 : Nat)
    (rest : List Nat) (tc : Nat) (hsz : 8 + (b0 :: b1 :: rest).length < 65536) :
    Builder.UDP.set_checksum
      { l3 := .v6 h6, l4 := .udp u, l4_protocol := proto, payload := b0 :: b1 :: rest } tc
    = .ok { l3 := .v6 h6,
            l4 := .udp { u with uh_sum := tc },
            l4_protocol := proto,
            payload := toBytes16 (tweak_payload (ip_checksum_finish
              (ipv6_pseudo_header_checksum h6 (8 + (b0 :: b1 :: rest).length) proto
                + wordSum (({ u with uh_sum := 0 } : UdpHeader).bytes ++ (b0 :: b1 :: rest))))
              tc) ++ rest } := by
  simp only [Builder.UDP.set_checksum, Builder.assert_payload_size, Packet.payload_size,
    PAYLOAD_TWEAK_BYTES, List.length_cons]
  rw [if_neg (by omega)]
  rw [transport_checksum_eq _ (by simpa [Packet.l4_size] using hsz)]
  rfl

/-- Value of `spec_l4_checksum` on an IPv4 UDP packet. -/
theorem spec_l4_checksum_udp4 (h4 : Ipv4Header) (u : UdpHeader) (proto : Nat)
    (pay : List Nat) (hsz : 8 + pay.length < 65536) :
    spec_l4_checksum { l3 := .v4 h4, l4 := .udp u, l4_protocol := proto, payload := pay }
    = .ok (ip_checksum_finish
        (ipv4_pseudo_header_checksum h4 (8 + pay.length)
          + wordSum (({ u with uh_sum := 0 } : UdpHeader).bytes ++ pay))) := by
  simp only [spec_l4_checksum, zero_l4_checksum]
  rw [transport_checksum_eq _ (by simpa [Packet.l4_size] using hsz)]
  rfl

/-- Value of `spec_l4_checksum` on an IPv6 UDP packet. -/
theorem spec_l4_checksum_udp6 (h6 : Ipv6Header) (u : UdpHeader) (proto : Nat)
    (pay : List Nat) (hsz : 8 + pay.length < 65536) :
    spec_l4_checksum { l3 := .v6 h6, l4 := .udp u, l4_protocol := proto, payload := pay }
    = .ok (ip_checksum_finish
        (ipv6_pseudo_header_checksum h6 (8 + pay.length) proto
          + wordSum (({ u with uh_sum := 0 } : UdpHeader).bytes ++ pay))) := by
  simp only [spec_l4_checksum, zero_l4_checksum]
  rw [transport_checksum_eq _ (by simpa [Packet.l4_size] using hsz)]
  rfl

/-- `UDP::set_checksum` with a target on a packet whose two tweak-region
payload bytes are zero achieves the target checksum (either L3 protocol). -/
theorem udp_set_checksum_tweak_ok (l3 : L3Header) (u : UdpHeader) (proto : Nat)
    (rest : List Nat) (tc : Nat)
    (hsz : 8 + (rest.length + 2) < 65536) (htc : tc ≤ 65534) :
    ∃ q, Builder.UDP.set_checksum
        { l3 := l3, l4 := .udp u, l4_protocol := proto, payload := 0 :: 0 :: rest } tc
      = .ok q ∧ spec_l4_checksum q = .ok tc := by
  have hsum : ({ { u with uh_sum := tc } with uh_sum := 0 } : UdpHeader)
      = ({ u with uh_sum := 0 } : UdpHeader) := rfl
  cases l3 with
  | v4 h4 =>
    refine ⟨_, udp_set_checksum_eq4 h4 u proto 0 0 rest tc (by simp; omega), ?_⟩
    rw [spec_l4_checksum_udp4 h4 _ proto _ (by simp [toBytes16]; omega)]
    have hlen : (toBytes16 (tweak_payload (ip_checksum_finish
        (ipv4_pseudo_header_checksum h4 (8 + (0 :: 0 :: rest).length)
          + wordSum (({ u with uh_sum := 0 } : UdpHeader).bytes ++ (0 :: 0 :: rest))))
        tc) ++ rest).length = (0 :: 0 :: rest).length := by
      simp [toBytes16]
    rw [hlen, hsum]
    exact congrArg Except.ok (tweak_recompute_transport
      (ipv4_pseudo_header_checksum h4 (8 + (0 :: 0 :: rest).length))
      ({ u with uh_sum := 0 } : UdpHeader).bytes rest
      (by simp [UdpHeader.bytes, toBytes16]) tc htc)
  | v6 h6 =>
    refine ⟨_, udp_set_checksum_eq6 h6 u proto 0 0 rest tc (by simp; omega), ?_⟩
    rw [spec_l4_checksum_udp6 h6 _ proto _ (by simp [toBytes16]; omega)]
    have hlen : (toBytes16 (tweak_payload (ip_checksum_finish
        (ipv6_pseudo_header_checksum h6 (8 + (0 :: 0 :: rest).length) proto
          + wordSum (({ u with uh_sum := 0 } : UdpHeader).bytes ++ (0 :: 0 :: rest))))
        tc) ++ rest).length = (0 :: 0 :: rest).length := by
      simp [toBytes16]
    rw [hlen, hsum]
    exact congrArg Except.ok (tweak_recompute_transport
      (ipv6_pseudo_header_checksum h6 (8 + (0 :: 0 :: rest).length) proto)
      ({ u with uh_sum := 0 } : UdpHeader).bytes rest
      (by simp [UdpHeader.bytes, toBytes16]) tc htc)

/-- Value of `ICMP::init` on a packet with at least two payload bytes. -/
theorem icmp_init_eq (l3 : L3Header) (l4 : L4Header) (proto b0 b1 : Nat)
    (rest : List Nat) (tc ts : Nat) :
    Builder.ICMP.init
      { l3 := l3, l4 := l4, l4_protocol := proto, payload := b0 :: b1 :: rest } tc ts
    = .ok { l3 := l3,
            l4 := .icmp { Builder.echo_header 8 tc ts with icmp_cksum := tc },
            l4_protocol := proto,
            payload := toBytes16 (tweak_payload
              (Builder.ICMP.original_checksum (Builder.echo_header 8 tc ts)) tc) ++
              rest } := by
  simp only [Builder.ICMP.init, Builder.assert_payload_size, Packet.payload_size,
    PAYLOAD_TWEAK_BYTES, List.length_cons]
  rw [if_neg (by omega)]
  rfl

/-- Storing the header checksum computed on a zero-checksum IPv4 header makes
the header validate: the checksum over its final twenty bytes is zero. -/
theorem ipv4_stored_checksum_valid (h1 : Ipv4Header) (hsum : h1.ip_sum = 0) :
    ip_checksum (Ipv4Header.bytes { h1 with ip_sum := ip_checksum h1.bytes }) = 0 := by
  obtain ⟨X, hX⟩ : ∃ X, ip_checksum h1.bytes = X := ⟨_, rfl⟩
  have hle : X ≤ 65535 := by
    rw [← hX]
    unfold ip_checksum ip_checksum_finish
    omega
  rw [hX]
  have hsplit : wordSum (Ipv4Header.bytes { h1 with ip_sum := X })
      = wordSum h1.bytes + X := by
    simp [Ipv4Header.bytes, toBytes16, toBytes32, wordSum, hsum]
    omega
  rw [ip_checksum_eq, hsplit, ← hX, ip_checksum_eq h1.bytes]
  exact checksum_store_valid (wordSum h1.bytes)

/-! ## Lemmas about the prober loop -/

theorem sendLoop_totals (sendOk : Nat → Bool) (n : Nat) : ∀ (s : Statistics.Prober),
    ((Prober.sendLoop sendOk n s).sent + (Prober.sendLoop sendOk n s).failed
      = s.sent + s.failed + n)
    ∧ (Prober.sendLoop sendOk n s).read = s.read
    ∧ (Prober.sendLoop sendOk n s).filtered_lo_ttl = s.filtered_lo_ttl
    ∧ (Prober.sendLoop sendOk n s).filtered_hi_ttl = s.filtered_hi_ttl
    ∧ (Prober.sendLoop sendOk n s).filtered_prefix_excl = s.filtered_prefix_excl
    ∧ (Prober.sendLoop sendOk n s).filtered_prefix_not_incl
        = s.filtered_prefix_not_incl := by
  induction n with
  | zero =>
    intro s
    simp [Prober.sendLoop]
  | succ n ih =>
    intro s
    simp only [Prober.sendLoop]
    by_cases hc : sendOk (s.sent + s.failed)
    · rw [if_pos hc]
      obtain ⟨h1, h2, h3, h4, h5, h6⟩ := ih { s with sent := s.sent + 1 }
      dsimp only at h1 h2 h3 h4 h5 h6
      exact ⟨by omega, h2, h3, h4, h5, h6⟩
    · rw [if_neg hc]
      obtain ⟨h1, h2, h3, h4, h5, h6⟩ := ih { s with failed := s.failed + 1 }
      dsimp only at h1 h2 h3 h4 h5 h6
      exact ⟨by omega, h2, h3, h4, h5, h6⟩

theorem countSuccess_le (sendOk : Nat → Bool) : ∀ (n base : Nat),
    Prober.countSuccess sendOk base n ≤ n
  | 0, _ => Nat.le_refl 0
  | n + 1, base => by
    have := countSuccess_le sendOk n (base + 1)
    simp only [Prober.countSuccess]
    split <;> omega

/-- The conservation invariant is preserved by the whole driver loop:
whenever `sent + failed` is a multiple of `n_packets` and `read` equals the
filter counters plus the number of surviving probes, the same holds after
processing any remaining probe list. -/
theorem probeLoop_invariant (config : Prober.Config) (excl incl sendOk : Nat → Bool) :
    ∀ (probes : List Probe) (s : Statistics.Prober) (k : Nat),
      s.sent + s.failed = config.n_packets * k →
      s.read = s.filtered_lo_ttl + s.filtered_hi_ttl + s.filtered_prefix_excl +
        s.filtered_prefix_not_incl + k →
      ∃ k2,
        (Prober.probeLoop config excl incl sendOk probes s).sent +
          (Prober.probeLoop config excl incl sendOk probes s).failed
            = config.n_packets * k2 ∧
        (Prober.probeLoop config excl incl sendOk probes s).read
          = (Prober.probeLoop config excl incl sendOk probes s).filtered_lo_ttl +
            (Prober.probeLoop config excl incl sendOk probes s).filtered_hi_ttl +
            (Prober.probeLoop config excl incl sendOk probes s).filtered_prefix_excl +
            (Prober.probeLoop config excl incl sendOk probes s).filtered_prefix_not_incl +
            k2
  | [], s, k, h1, h2 => ⟨k, h1, h2⟩
  | p :: rest, s, k, h1, h2 => by
    have hstep : ∃ k2,
        (Prober.handleProbe config excl incl sendOk s p).sent +
          (Prober.handleProbe config excl incl sendOk s p).failed
            = config.n_packets * k2 ∧
        (Prober.handleProbe config excl incl sendOk s p).read
          = (Prober.handleProbe config excl incl sendOk s p).filtered_lo_ttl +
            (Prober.handleProbe config excl incl sendOk s p).filtered_hi_ttl +
            (Prober.handleProbe config excl incl sendOk s p).filtered_prefix_excl +
            (Prober.handleProbe config excl incl sendOk s p).filtered_prefix_not_incl +
            k2 := by
      simp only [Prober.handleProbe]
      split
      · exact ⟨k, by dsimp only; omega, by dsimp only; omega⟩
      · split
        · exact ⟨k, by dsimp only; omega, by dsimp only; omega⟩
        · split
          · exact ⟨k, by dsimp only; omega, by dsimp only; omega⟩
          · split
            · exact ⟨k, by dsimp only; omega, by dsimp only; omega⟩
            · have g := sendLoop_totals sendOk config.n_packets { s with read := s.read + 1 }
              have g1 : (Prober.sendLoop sendOk config.n_packets
                    { s with read := s.read + 1 }).sent +
                  (Prober.sendLoop sendOk config.n_packets
                    { s with read := s.read + 1 }).failed
                  = s.sent + s.failed + config.n_packets := g.1
              have g2 : (Prober.sendLoop sendOk config.n_packets
                  { s with read := s.read + 1 }).read = s.read + 1 := g.2.1
              have g3 : (Prober.sendLoop sendOk config.n_packets
                  { s with read := s.read + 1 }).filtered_lo_ttl
                  = s.filtered_lo_ttl := g.2.2.1
              have g4 : (Prober.sendLoop sendOk config.n_packets
                  { s with read := s.read + 1 }).filtered_hi_ttl
                  = s.filtered_hi_ttl := g.2.2.2.1
              have g5 : (Prober.sendLoop sendOk config.n_packets
                  { s with read := s.read + 1 }).filtered_prefix_excl
                  = s.filtered_prefix_excl := g.2.2.2.2.1
              have g6 : (Prober.sendLoop sendOk config.n_packets
                  { s with read := s.read + 1 }).filtered_prefix_not_incl
                  = s.filtered_prefix_not_incl := g.2.2.2.2.2
              have hmul : config.n_packets * (k + 1)
                  = config.n_packets * k + config.n_packets := by ring
              exact ⟨k + 1, by omega, by omega⟩
    obtain ⟨k2, hk1, hk2⟩ := hstep
    simp only [Prober.probeLoop]
    split
    · exact ⟨k2, hk1, hk2⟩
    · exact probeLoop_invariant config excl incl sendOk rest _ k2 hk1 hk2

/-- Exact accounting of the inner send loop: starting from attempt index
`base = sent + failed`, `sent` grows by the number of successful outcomes and
`failed` by the number of failing ones. -/
theorem sendLoop_counts (sendOk : Nat → Bool) (n : Nat) :
    ∀ (s : Statistics.Prober) (base : Nat), base = s.sent + s.failed →
    (Prober.sendLoop sendOk n s).sent
        = s.sent + Prober.countSuccess sendOk base n ∧
    (Prober.sendLoop sendOk n s).failed
        = s.failed + (n - Prober.countSuccess sendOk base n) := by
  induction n with
  | zero =>
    intro s base hb
    simp [Prober.sendLoop, Prober.countSuccess]
  | succ n ih =>
    intro s base hb
    subst hb
    have hcle := countSuccess_le sendOk n (s.sent + s.failed + 1)
    simp only [Prober.sendLoop, Prober.countSuccess]
    by_cases hc : sendOk (s.sent + s.failed) = true
    · simp only [if_pos hc]
      obtain ⟨i1, i2⟩ := ih { s with sent := s.sent + 1 } (s.sent + s.failed + 1)
        (by dsimp only; omega)
      dsimp only at i1 i2
      constructor
      · omega
      · omega
    · simp only [if_neg hc]
      obtain ⟨i1, i2⟩ := ih { s with failed := s.failed + 1 } (s.sent + s.failed + 1)
        (by dsimp only; omega)
      dsimp only at i1 i2
      constructor
      · omega
      · omega

/-! ## The claims -/

/-- C4: a payload strictly below the two-byte tweak minimum makes
`ICMP::init`, `ICMPv6::init` and `UDP::set_checksum` (target overload) fail
with `std::invalid_argument`; with at least two payload bytes (and a
wire-valid L4 size fitting the 16-bit length fields) none of them raises
that error. -/
theorem claim_C4_min_payload (p : Packet) (tc ts : Nat) :
    (p.payload.length < 2 →
      Builder.ICMP.init p tc ts = .error (.invalidArgument
        ("The payload must be at-least 2 bytes long to allow for a custom checksum")) ∧
      Builder.ICMPv6.init p tc ts = .error (.invalidArgument
        ("The payload must be at-least 2 bytes long to allow for a custom checksum")) ∧
      Builder.UDP.set_checksum p tc = .error (.invalidArgument
        ("The payload must be at-least 2 bytes long to allow for a custom checksum"))) ∧
    (2 ≤ p.payload.length → 8 + p.payload.length < 65536 →
      exceptIsOk (Builder.ICMP.init p tc ts) = true ∧
      exceptIsOk (Builder.ICMPv6.init p tc ts) = true ∧
      exceptIsOk (Builder.UDP.set_checksum p tc) = true) := by
  obtain ⟨l3, l4, lp, pay⟩ := p
  constructor
  · intro hlt
    dsimp only at hlt
    refine ⟨?_, ?_, ?_⟩
    · simp only [Builder.ICMP.init, Builder.assert_payload_size, Packet.payload_size,
        PAYLOAD_TWEAK_BYTES]
      rw [if_pos hlt]
      rfl
    · simp only [Builder.ICMPv6.init, Builder.assert_payload_size, Packet.payload_size,
        PAYLOAD_TWEAK_BYTES]
      rw [if_pos hlt]
      rfl
    · simp only [Builder.UDP.set_checksum, Builder.assert_payload_size, Packet.payload_size,
        PAYLOAD_TWEAK_BYTES]
      rw [if_pos hlt]
      rfl
  · intro hge hsz
    dsimp only at hge hsz
    refine ⟨?_, ?_, ?_⟩
    · simp only [Builder.ICMP.init, Builder.assert_payload_size, Packet.payload_size,
        PAYLOAD_TWEAK_BYTES]
      rw [if_neg (by omega)]
      rfl
    · simp only [Builder.ICMPv6.init, Builder.assert_payload_size, Packet.payload_size,
        PAYLOAD_TWEAK_BYTES]
      rw [if_neg (by omega)]
      rw [transport_checksum_eq _ (by simpa [Packet.l4_size] using hsz)]
      rfl
    · simp only [Builder.UDP.set_checksum, Builder.assert_payload_size, Packet.payload_size,
        PAYLOAD_TWEAK_BYTES]
      rw [if_neg (by omega)]
      cases l4 with
      | icmp h => rfl
      | udp u =>
        dsimp only
        rw [transport_checksum_eq
          { l3 := l3, l4 := .udp { u with uh_sum := 0 }, l4_protocol := lp, payload := pay }
          (by simpa [Packet.l4_size] using hsz)]
        rfl

/-- C4 witness: a one-byte payload fails with the invalid-argument message; a
two-byte payload succeeds on all three builders. -/
theorem claim_C4_min_payload_witness :
    (Builder.ICMP.init testPacketSmall 1 2 = .error (.invalidArgument
        ("The payload must be at-least 2 bytes long to allow for a custom checksum")) ∧
      Builder.ICMPv6.init testPacketSmall 1 2 = .error (.invalidArgument
        ("The payload must be at-least 2 bytes long to allow for a custom checksum")) ∧
      Builder.UDP.set_checksum testPacketSmall 1 = .error (.invalidArgument
        ("The payload must be at-least 2 bytes long to allow for a custom checksum"))) ∧
    (exceptIsOk (Builder.ICMP.init testPacket4 1 2) = true ∧
      exceptIsOk (Builder.ICMPv6.init testPacket4 1 2) = true ∧
      exceptIsOk (Builder.UDP.set_checksum testPacket4 1) = true) :=
  ⟨(claim_C4_min_payload testPacketSmall 1 2).1 (by decide),
   (claim_C4_min_payload testPacket4 1 2).2 (by decide) (by decide)⟩

/-- C5: after the driver loop terminates (iterator exhaustion or the
max-probes break), `read` equals the four filter counters plus
`(sent + failed) / n_packets`; the break sits after the full inner loop, so
the equality is exact, with no partially-broken iteration. -/
theorem claim_C5_statistics_conservation (config : Prober.Config)
    (excl incl sendOk : Nat → Bool) (probes : List Probe) (s : Statistics.Prober)
    (hn : 1 ≤ config.n_packets)
    (hs : s = Prober.probeLoop config excl incl sendOk probes {}) :
    s.read = s.filtered_lo_ttl + s.filtered_hi_ttl + s.filtered_prefix_excl +
      s.filtered_prefix_not_incl + (s.sent + s.failed) / config.n_packets := by
  subst hs
  obtain ⟨k2, hk1, hk2⟩ := probeLoop_invariant config excl incl sendOk probes {} 0
    (by simp) (by simp)
  rw [hk2, hk1, Nat.mul_div_cancel_left _ (show 0 < config.n_packets by omega)]

/-- C5 witness: a concrete run with two packets per probe, TTL filters, a
deny filter, send failures and a max-probes break. -/
theorem claim_C5_statistics_conservation_witness :
    (Prober.probeLoop testConfig testExcl testIncl testSendOk testProbes {}).read
      = (Prober.probeLoop testConfig testExcl testIncl testSendOk testProbes {}).filtered_lo_ttl +
        (Prober.probeLoop testConfig testExcl testIncl testSendOk testProbes {}).filtered_hi_ttl +
        (Prober.probeLoop testConfig testExcl testIncl testSendOk testProbes {}).filtered_prefix_excl +
        (Prober.probeLoop testConfig testExcl testIncl testSendOk testProbes {}).filtered_prefix_not_incl +
        ((Prober.probeLoop testConfig testExcl testIncl testSendOk testProbes {}).sent +
          (Prober.probeLoop testConfig testExcl testIncl testSendOk testProbes {}).failed) /
          testConfig.n_packets :=
  claim_C5_statistics_conservation testConfig testExcl testIncl testSendOk testProbes _
    (by decide) rfl

/-- C7: the inner loop performs all `n` send attempts regardless of
outcomes — each attempt increments `sent` on success and `failed` on
`SystemError` — so `sent` grows by exactly the number of successes, `failed`
by the number of failures, and no other statistic changes; a failure never
aborts the loop. -/
theorem claim_C7_send_accounting (sendOk : Nat → Bool) (n : Nat) (s : Statistics.Prober) :
    (Prober.sendLoop sendOk n s).sent
      = s.sent + Prober.countSuccess sendOk (s.sent + s.failed) n ∧
    (Prober.sendLoop sendOk n s).failed
      = s.failed + (n - Prober.countSuccess sendOk (s.sent + s.failed) n) ∧
    (Prober.sendLoop sendOk n s).read = s.read ∧
    (Prober.sendLoop sendOk n s).filtered_lo_ttl = s.filtered_lo_ttl ∧
    (Prober.sendLoop sendOk n s).filtered_hi_ttl = s.filtered_hi_ttl ∧
    (Prober.sendLoop sendOk n s).filtered_prefix_excl = s.filtered_prefix_excl ∧
    (Prober.sendLoop sendOk n s).filtered_prefix_not_incl = s.filtered_prefix_not_incl := by
  obtain ⟨c1, c2⟩ := sendLoop_counts sendOk n s (s.sent + s.failed) rfl
  obtain ⟨t1, t2, t3, t4, t5, t6⟩ := sendLoop_totals sendOk n s
  exact ⟨c1, c2, t2, t3, t4, t5, t6⟩

/-- C1 (amended): for every packet with payload of at least two bytes whose
tweak region is clean — the payload bytes after the first two are zero for
ICMPv4, whose original checksum covers only the header; the first two payload
bytes are zero for ICMPv6 and UDP, whose original checksum covers the
payload before the tweak word is written — and for every target checksum
other than 0xFFFF, after the builder runs, re-computing the L4 checksum over
the resulting buffer (pseudo-header where applicable, L4 header and payload)
yields exactly the target. -/
theorem claim_C1_checksum_tweak_law
    (l4a : L4Header) (h4 : Ipv4Header) (pa b0 b1 : Nat) (ra : List Nat) (tca tsa : Nat)
    (l4b : L4Header) (h6 : Ipv6Header) (pb : Nat) (rb : List Nat) (tcb tsb : Nat)
    (l3c : L3Header) (u : UdpHeader) (pc : Nat) (rc : List Nat) (tcc : Nat)
    (hra : ∀ b ∈ ra, b = 0) (htca : tca ≤ 65534)
    (hszb : 8 + (rb.length + 2) < 65536) (htcb : tcb ≤ 65534)
    (hszc : 8 + (rc.length + 2) < 65536) (htcc : tcc ≤ 65534) :
    (∃ q, Builder.ICMP.init
        { l3 := .v4 h4, l4 := l4a, l4_protocol := pa, payload := b0 :: b1 :: ra }
        tca tsa = .ok q ∧ spec_l4_checksum q = .ok tca) ∧
    (∃ q, Builder.ICMPv6.init
        { l3 := .v6 h6, l4 := l4b, l4_protocol := pb, payload := 0 :: 0 :: rb }
        tcb tsb = .ok q ∧ spec_l4_checksum q = .ok tcb) ∧
    (∃ q, Builder.UDP.set_checksum
        { l3 := l3c, l4 := .udp u, l4_protocol := pc, payload := 0 :: 0 :: rc }
        tcc = .ok q ∧ spec_l4_checksum q = .ok tcc) :=
  ⟨icmp_init_tweak_ok l4a h4 pa b0 b1 ra tca tsa hra htca,
   icmpv6_init_tweak_ok l4b h6 pb rb tcb tsb hszb htcb,
   udp_set_checksum_tweak_ok l3c u pc rc tcc hszc htcc⟩

/-- C1 counterexample: with target checksum 0xFFFF and a clean two-byte zero
payload, the recomputed checksum of the built ICMPv4 packet is 0x0000, not
0xFFFF: a one's-complement checksum never finishes to 0xFFFF over a buffer
with a non-zero word, so the claim fails at C_target = 0xFFFF. -/
theorem claim_C1_checksum_tweak_law_cex :
    (Builder.ICMP.init testPacket4 65535 5).bind spec_l4_checksum ≠ .ok 65535 ∧
    (Builder.ICMP.init testPacket4 65535 5).bind spec_l4_checksum = .ok 0 :=
  ⟨by decide, by decide⟩

/-- C1 witness: target 0x1234 on concrete ICMPv4, ICMPv6 and UDP packets. -/
theorem claim_C1_checksum_tweak_law_witness :
    (∃ q, Builder.ICMP.init
        { l3 := .v4 testIpv4Header, l4 := .icmp testIcmpHeader, l4_protocol := 1,
          payload := 0 :: 0 :: [] } 4660 5 = .ok q ∧ spec_l4_checksum q = .ok 4660) ∧
    (∃ q, Builder.ICMPv6.init
        { l3 := .v6 testIpv6Header, l4 := .icmp testIcmpHeader, l4_protocol := 58,
          payload := 0 :: 0 :: [] } 4660 5 = .ok q ∧ spec_l4_checksum q = .ok 4660) ∧
    (∃ q, Builder.UDP.set_checksum
        { l3 := .v4 testIpv4Header, l4 := .udp testUdpHeader, l4_protocol := 17,
          payload := 0 :: 0 :: [] } 4660 = .ok q ∧ spec_l4_checksum q = .ok 4660) :=
  claim_C1_checksum_tweak_law (.icmp testIcmpHeader) testIpv4Header 1 0 0 [] 4660 5
    (.icmp testIcmpHeader) testIpv6Header 58 [] 4660 5
    (.v4 testIpv4Header) testUdpHeader 17 [] 4660
    (by decide) (by decide) (by decide) (by decide) (by decide) (by decide)

/-- C2 (amended): the original checksum `ICMP::init` derives the payload
tweak word from covers only the 8-byte ICMP echo header, not the payload;
the ICMPv6 original checksum additionally covers the IPv6 pseudo-header and
the payload. -/
theorem claim_C2_icmp_checksum_coverage
    (l3a : L3Header) (l4a : L4Header) (pa b0 b1 : Nat) (ra : List Nat) (tca tsa : Nat)
    (l4b : L4Header) (h6 : Ipv6Header) (pb b2 b3 : Nat) (rb : List Nat) (tcb tsb : Nat)
    (hszb : 8 + (b2 :: b3 :: rb).length < 65536) :
    (∃ q, Builder.ICMP.init
        { l3 := l3a, l4 := l4a, l4_protocol := pa, payload := b0 :: b1 :: ra } tca tsa
        = .ok q ∧
      q.payload.take 2 = toBytes16 (tweak_payload
        (ip_checksum (Builder.echo_header 8 tca tsa).bytes) tca)) ∧
    (∃ q, Builder.ICMPv6.init
        { l3 := .v6 h6, l4 := l4b, l4_protocol := pb, payload := b2 :: b3 :: rb } tcb tsb
        = .ok q ∧
      q.payload.take 2 = toBytes16 (tweak_payload (ip_checksum_finish
        (ipv6_pseudo_header_checksum h6 (8 + (b2 :: b3 :: rb).length) pb
          + wordSum ((Builder.echo_header 128 tcb tsb).bytes ++ (b2 :: b3 :: rb)))) tcb)) := by
  constructor
  · exact ⟨_, icmp_init_eq l3a l4a pa b0 b1 ra tca tsa, rfl⟩
  · exact ⟨_, icmpv6_init_eq l4b h6 pb b2 b3 rb tcb tsb hszb, rfl⟩

/-- C2 counterexample: on a packet whose payload is non-zero past the tweak
region, the tweak word `ICMP::init` writes differs from the word that an
original checksum covering the header and the payload would give; the
written word matches the header-only checksum. -/
theorem claim_C2_icmp_checksum_coverage_cex :
    (Builder.ICMP.init testPacket4b 0 0).map (fun q => q.payload.take 2)
      ≠ .ok (toBytes16 (tweak_payload (ip_checksum
          ((Builder.echo_header 8 0 0).bytes ++ testPacket4b.payload)) 0)) ∧
    (Builder.ICMP.init testPacket4b 0 0).map (fun q => q.payload.take 2)
      = .ok (toBytes16 (tweak_payload (ip_checksum (Builder.echo_header 8 0 0).bytes) 0)) :=
  ⟨by decide, by decide⟩

/-- C2 witness: concrete ICMPv4 and ICMPv6 packets with payload bytes 7, 9
past the tweak region. -/
theorem claim_C2_icmp_checksum_coverage_witness :
    (∃ q, Builder.ICMP.init
        { l3 := .v4 testIpv4Header, l4 := .icmp testIcmpHeader, l4_protocol := 1,
          payload := 0 :: 0 :: [7, 9] } 4660 5 = .ok q ∧
      q.payload.take 2 = toBytes16 (tweak_payload
        (ip_checksum (Builder.echo_header 8 4660 5).bytes) 4660)) ∧
    (∃ q, Builder.ICMPv6.init
        { l3 := .v6 testIpv6Header, l4 := .icmp testIcmpHeader, l4_protocol := 58,
          payload := 0 :: 0 :: [7, 9] } 4660 5 = .ok q ∧
      q.payload.take 2 = toBytes16 (tweak_payload (ip_checksum_finish
        (ipv6_pseudo_header_checksum testIpv6Header (8 + (0 :: 0 :: [7, 9] : List Nat).length) 58
          + wordSum ((Builder.echo_header 128 4660 5).bytes ++ (0 :: 0 :: [7, 9])))) 4660)) :=
  claim_C2_icmp_checksum_coverage (.v4 testIpv4Header) (.icmp testIcmpHeader) 1 0 0 [7, 9]
    4660 5 (.icmp testIcmpHeader) testIpv6Header 58 0 0 [7, 9] 4660 5 (by decide)

/-- C3 (amended): the IPv6 `IP::init` sets the flow word to version 6,
traffic class 0 and flow label 0, the hop limit to the TTL, the next header,
the addresses, and `ip6_plen` to the packet's L4 size.  The init function
itself does not add the TTL into the length — the caller encodes the TTL by
sizing the payload. -/
theorem claim_C3_ipv6_init_fields (h6 : Ipv6Header) (l4 : L4Header) (lproto proto : Nat)
    (src dst : List Nat) (ttl : Nat) (pay : List Nat)
    (hsz : 8 + pay.length < 65536) :
    Builder.IP.init6 { l3 := .v6 h6, l4 := l4, l4_protocol := lproto, payload := pay }
      proto src dst ttl
    = .ok { l3 := .v6 { ip6_flow := 0x60000000, ip6_plen := 8 + pay.length,
                        ip6_nxt := proto, ip6_hops := ttl,
                        ip6_src := src, ip6_dst := dst },
            l4 := l4, l4_protocol := lproto, payload := pay } := by
  simp only [Builder.IP.init6, Checked.hton16, Checked.numeric_cast16]
  rw [if_pos (show Packet.l4_size
    { l3 := .v6 h6, l4 := l4, l4_protocol := lproto, payload := pay } < 65536
    from by simpa [Packet.l4_size] using hsz)]
  rfl

/-- C3 counterexample: `ip6_plen` after `IP::init` does not depend on the
TTL at all — running it with TTL 7 and TTL 8 on the same 16-byte-L4 packet
stores plen 16 both times — so no constant `base` satisfies
`plen = ttl + base`. -/
theorem claim_C3_ipv6_init_fields_cex :
    ¬ ∃ base : Nat, ∀ ttl : Nat, ttl ≤ 255 →
      plen_of (Builder.IP.init6 testPacket6 17 (List.replicate 16 0)
        testIpv6Header.ip6_dst ttl) = ttl + base := by
  rintro ⟨base, hb⟩
  have h7 := hb 7 (by omega)
  have h8 := hb 8 (by omega)
  have e7 : plen_of (Builder.IP.init6 testPacket6 17 (List.replicate 16 0)
      testIpv6Header.ip6_dst 7) = 16 := by decide
  have e8 : plen_of (Builder.IP.init6 testPacket6 17 (List.replicate 16 0)
      testIpv6Header.ip6_dst 8) = 16 := by decide
  omega

/-- C3 witness: concrete IPv6 initialisation with TTL 7. -/
theorem claim_C3_ipv6_init_fields_witness :
    Builder.IP.init6 testPacket6 17 (List.replicate 16 0) testIpv6Header.ip6_dst 7
    = .ok { l3 := .v6 { ip6_flow := 0x60000000, ip6_plen := 16, ip6_nxt := 17,
                        ip6_hops := 7, ip6_src := List.replicate 16 0,
                        ip6_dst := testIpv6Header.ip6_dst },
            l4 := .udp testUdpHeader, l4_protocol := 17,
            payload := [0, 0, 0, 0, 0, 0, 0, 0] } :=
  claim_C3_ipv6_init_fields testIpv6Header (.udp testUdpHeader) 17 17
    (List.replicate 16 0) testIpv6Header.ip6_dst 7 [0, 0, 0, 0, 0, 0, 0, 0] (by decide)

/-- C6: after the IPv4 `IP::init`, the header has version 4, header length 5,
ToS 0, the given protocol, source, destination and TTL, the IP ID equal to
the TTL, the total length equal to the packet's L3 size, and a stored header
checksum that validates over the twenty header bytes (re-summing the full
header finishes to zero). -/
theorem claim_C6_ipv4_init (h4 : Ipv4Header) (l4 : L4Header) (lproto proto src dst ttl : Nat)
    (pay : List Nat) (httl : ttl < 256) (hsz : 20 + (8 + pay.length) < 65536) :
    ∃ hh, Builder.IP.init4 { l3 := .v4 h4, l4 := l4, l4_protocol := lproto, payload := pay }
        proto src dst ttl
      = .ok { l3 := .v4 hh, l4 := l4, l4_protocol := lproto, payload := pay } ∧
      hh.ip_v = 4 ∧ hh.ip_hl = 5 ∧ hh.ip_tos = 0 ∧ hh.ip_p = proto ∧
      hh.ip_src = src ∧ hh.ip_dst = dst ∧ hh.ip_ttl = ttl ∧ hh.ip_id = ttl ∧
      hh.ip_len = Packet.l3_size
        { l3 := .v4 h4, l4 := l4, l4_protocol := lproto, payload := pay } ∧
      ip_checksum hh.bytes = 0 := by
  refine ⟨{ Builder.filled_ipv4_header h4 proto src dst ttl ttl (20 + (8 + pay.length)) with
      ip_sum := ip_checksum (Builder.filled_ipv4_header h4 proto src dst ttl ttl
        (20 + (8 + pay.length))).bytes },
    ?_, rfl, rfl, rfl, rfl, rfl, rfl, rfl, rfl, rfl, ?_⟩
  · simp only [Builder.IP.init4, Checked.hton16, Checked.numeric_cast16]
    rw [if_pos (show ttl < 65536 by omega),
        if_pos (show Packet.l3_size
          { l3 := .v4 h4, l4 := l4, l4_protocol := lproto, payload := pay } < 65536
          from by simpa [Packet.l3_size, Packet.l4_size] using hsz)]
    rfl
  · exact ipv4_stored_checksum_valid _ rfl

/-- C6 witness: concrete IPv4 initialisation, TTL 5. -/
theorem claim_C6_ipv4_init_witness :
    ∃ hh, Builder.IP.init4 testPacket4 1 16909060 84281096 5
      = .ok { l3 := .v4 hh, l4 := .icmp testIcmpHeader, l4_protocol := 1,
              payload := [0, 0] } ∧
      hh.ip_v = 4 ∧ hh.ip_hl = 5 ∧ hh.ip_tos = 0 ∧ hh.ip_p = 1 ∧
      hh.ip_src = 16909060 ∧ hh.ip_dst = 84281096 ∧ hh.ip_ttl = 5 ∧ hh.ip_id = 5 ∧
      hh.ip_len = Packet.l3_size testPacket4 ∧
      ip_checksum hh.bytes = 0 :=
  claim_C6_ipv4_init testIpv4Header (.icmp testIcmpHeader) 1 1 16909060 84281096 5 [0, 0]
    (by decide) (by decide)

/-- C8: every captured frame handed to the reader's handler increments
`received_count` exactly once regardless of the parse outcome, and appends
exactly one CSV line when the parser returns a reply and none otherwise;
over a whole capture, `received_count` equals the number of handler
invocations. -/
theorem claim_C8_reader_at_most_once {Frame : Type} (parse : Frame → Option Reply)
    (round : String) (st : Reader.State) (packet : Frame) (frames : List Frame) :
    ((Reader.handle parse round st packet).statistics.received_count
        = st.statistics.received_count + 1) ∧
    ((Reader.handle parse round st packet).output_csv.length
        = st.output_csv.length + (if (parse packet).isSome then 1 else 0)) ∧
    ((Reader.read parse round frames st).statistics.received_count
        = st.statistics.received_count + frames.length) := by
  refine ⟨?_, ?_, ?_⟩
  · cases hp : parse packet with
    | none => simp [Reader.handle, hp]
    | some r =>
      simp [Reader.handle, hp]
      split <;> rfl
  · cases hp : parse packet <;> simp [Reader.handle, hp]
  · induction frames generalizing st with
    | nil => simp [Reader.read]
    | cons f fs ih =>
      have hstep : (Reader.handle parse round st f).statistics.received_count
          = st.statistics.received_count + 1 := by
        cases hp : parse f with
        | none => simp [Reader.handle, hp]
        | some r =>
          simp [Reader.handle, hp]
          split <;> rfl
      have htail := ih (Reader.handle parse round st f)
      simp only [Reader.read, List.foldl_cons] at htail ⊢
      rw [htail, hstep, List.length_cons]
      omega

/-- C9 (amended): `probe(config, path)` on a path that does not exist fails
with `std::invalid_argument` (not `SystemError`): the driver checks
`fs::exists` and throws invalid_argument itself. -/
theorem claim_C9_probe_file_missing (fs_exists : String → Bool) (path : String)
    (run : String → Statistics.Prober) (h : fs_exists path = false) :
    Prober.probe_file fs_exists path run
      = .error (.invalidArgument (path ++ " does not exists")) := by
  simp [Prober.probe_file, h]

/-- C9 counterexample: for a missing path the failure is
`invalid_argument ("<path> does not exists")`, and in particular not a
`SystemError`. -/
theorem claim_C9_probe_file_missing_cex :
    Prober.probe_file (fun _ => false) "probes.csv" (fun _ => {})
      = .error (.invalidArgument ("probes.csv does not exists")) ∧
    exceptIsSystemError
      (Prober.probe_file (fun _ => false) "probes.csv" (fun _ => {})) = false :=
  ⟨by decide, by decide⟩

/-- C9 witness: concrete missing path. -/
theorem claim_C9_probe_file_missing_witness :
    Prober.probe_file (fun _ => false) "input.csv" (fun _ => {})
      = .error (.invalidArgument ("input.csv does not exists")) :=
  claim_C9_probe_file_missing (fun _ => false) "input.csv" (fun _ => {}) rfl

/-- C10: two packets that differ only in the initial contents of the L4
checksum field produce identical results under `ICMP::init`, `ICMPv6::init`
and `UDP::set_checksum` with a target: each operation zeroes (or overwrites)
the checksum field before reading anything that depends on it. -/
theorem claim_C10_checksum_field_oblivious (l3 : L3Header) (lp : Nat) (pay : List Nat)
    (ih : IcmpHeader) (u : UdpHeader) (c1 c2 tc ts : Nat) :
    (Builder.ICMP.init
        { l3 := l3, l4 := .icmp { ih with icmp_cksum := c1 }, l4_protocol := lp,
          payload := pay } tc ts
      = Builder.ICMP.init
        { l3 := l3, l4 := .icmp { ih with icmp_cksum := c2 }, l4_protocol := lp,
          payload := pay } tc ts) ∧
    (Builder.ICMPv6.init
        { l3 := l3, l4 := .icmp { ih with icmp_cksum := c1 }, l4_protocol := lp,
          payload := pay } tc ts
      = Builder.ICMPv6.init
        { l3 := l3, l4 := .icmp { ih with icmp_cksum := c2 }, l4_protocol := lp,
          payload := pay } tc ts) ∧
    (Builder.UDP.set_checksum
        { l3 := l3, l4 := .udp { u with uh_sum := c1 }, l4_protocol := lp,
          payload := pay } tc
      = Builder.UDP.set_checksum
        { l3 := l3, l4 := .udp { u with uh_sum := c2 }, l4_protocol := lp,
          payload := pay } tc) :=
  ⟨rfl, rfl, rfl⟩

end Caracal
